import Mathlib

/-!
Shallow embedding of `jupyterlab_braket_devices/routes.py`:
the device-listing fan-out (`DevicesRouteHandler._list_devices`) and the
device-detail resolver with its static-info cache
(`DevicesRouteHandler._get_device_info`).

Collaborator calls (aioboto3 `search_devices` / `get_device`) are modelled
as pure environments mapping a region name to the outcome the collaborator
would report there.  Python exceptions become explicit error values;
Python dicts whose keys may be absent become structures of `Option` fields.
-/

namespace Braket

/-- The fixed, ordered region catalog `BRAKET_REGIONS` from routes.py. -/
def BRAKET_REGIONS : List String :=
  ["us-east-1", "us-west-1", "us-west-2", "eu-west-2", "eu-north-1"]

/-- A raw device record returned by a region's `search_devices` page
(a Python dict; every key may be absent, hence `Option`). -/
structure RawDevice where
  deviceArn : Option String := none
  deviceName : Option String := none
  deviceType : Option String := none
  deviceStatus : Option String := none
  providerName : Option String := none
  deriving DecidableEq, Repr

/-- The exception a region's pagination can end with:
`NoCredentialsError`, a botocore `ClientError` carrying an error code,
or any other exception (carrying its type name and message). -/
inductive RegionFailure where
  | noCredentials
  | clientError (code : String) (msg : String)
  | otherError (name : String) (msg : String)
  deriving DecidableEq, Repr

/-- What one region's pagination loop yields: the pages successfully
fetched (and extended into `all_devices`) before the loop either
finished normally (`failure = none`) or raised (`failure = some e`). -/
structure RegionPages where
  pages : List (List RawDevice)
  failure : Option RegionFailure
  deriving DecidableEq, Repr

/-- An environment for the list fan-out: per region, what its
pagination yields on this run. -/
abbrev ListEnv := String → RegionPages

/-- A raw device tagged with the `_region` it was discovered in
(routes.py line 171: `device['_region'] = region`). -/
structure TaggedDevice where
  raw : RawDevice
  region : String
  deriving DecidableEq, Repr

/-- Fatal errors that abort `_list_devices`: `NoCredentialsError` and
`ClientError` are re-raised to the top-level handler (routes.py 180-182). -/
inductive ListFatal where
  | noCredentials
  | clientError (code : String) (msg : String)
  deriving DecidableEq, Repr

/-- The warning string appended when a region's fetch raises an
unexpected exception (routes.py line 185). -/
def regionWarning (region name msg : String) : String :=
  "Error fetching devices from " ++ region ++ ": " ++ name ++ ": " ++ msg

/-- All devices a region contributed to `all_devices`, each tagged with
the region (routes.py lines 166-173). -/
def tagDevices (region : String) (rp : RegionPages) : List TaggedDevice :=
  rp.pages.flatten.map (fun d => ⟨d, region⟩)

/-- One iteration of the region loop of `_list_devices`
(routes.py lines 150-187): the devices the region contributed, and either
a fatal error (auth / client errors re-raised) or an optional warning
(any other exception is logged and degraded). -/
def processRegion (region : String) (rp : RegionPages) :
    Except ListFatal (List TaggedDevice × List String) :=
  match rp.failure with
  | none => .ok (tagDevices region rp, [])
  | some .noCredentials => .error .noCredentials
  | some (.clientError c m) => .error (.clientError c m)
  | some (.otherError n m) => .ok (tagDevices region rp, [regionWarning region n m])

/-- The region loop of `_list_devices` over a list of regions,
accumulating devices and warnings; a fatal error aborts the whole call. -/
def fetchLoop (env : ListEnv) : List String → Except ListFatal (List TaggedDevice × List String)
  | [] => .ok ([], [])
  | r :: rest =>
    match processRegion r (env r) with
    | .error e => .error e
    | .ok (devs, ws) =>
      match fetchLoop env rest with
      | .error e => .error e
      | .ok (devs', ws') => .ok (devs ++ devs', ws ++ ws')

/-- A processed entry of the list result (routes.py lines 199-209):
the five projected fields plus the `_region` tag when present
(in the model the tag is always present, as every collected device
was tagged in the loop). -/
structure ListedDevice where
  deviceArn : Option String
  deviceName : Option String
  deviceType : Option String
  deviceStatus : String
  providerName : Option String
  region : String
  deriving DecidableEq, Repr

/-- The filtering stage of `_list_devices` (routes.py lines 189-217):
keep only devices whose status is ONLINE or OFFLINE, projecting the
displayed fields and the `_region` tag. -/
def filterDevices (devs : List TaggedDevice) : List ListedDevice :=
  devs.filterMap (fun td =>
    match td.raw.deviceStatus with
    | some s =>
      if s = "ONLINE" ∨ s = "OFFLINE" then
        some { deviceArn := td.raw.deviceArn, deviceName := td.raw.deviceName,
               deviceType := td.raw.deviceType, deviceStatus := s,
               providerName := td.raw.providerName, region := td.region }
      else none
    | none => none)

/-- The method `DevicesRouteHandler._list_devices` (routes.py lines 138-219):
fan out over `BRAKET_REGIONS`, collect and tag all pages, degrade
unexpected regional failures to warnings, re-raise auth/client errors,
then filter to ONLINE/OFFLINE devices. -/
def list_devices (env : ListEnv) : Except ListFatal (List ListedDevice × List String) :=
  match fetchLoop env BRAKET_REGIONS with
  | .error e => .error e
  | .ok (all, ws) => .ok (filterDevices all, ws)

/-- One entry of a `get_device` response's `deviceQueueInfo` list. -/
structure QueueItem where
  queue : Option String := none
  queueSize : Nat := 0
  queuePriority : Option String := none
  deriving DecidableEq, Repr

/-- The `queueDepth` sub-structure built at routes.py lines 337-343. -/
structure QueueDepth where
  quantumTasksNormal : Nat
  quantumTasksPriority : Nat
  jobs : Nat
  deriving DecidableEq, Repr

/-- The loop over `deviceQueueInfo` (routes.py lines 324-335): last write
wins for each counter, unrecognised queue kinds are ignored. -/
def queueLoop : List QueueItem → QueueDepth → QueueDepth
  | [], acc => acc
  | it :: rest, acc =>
    let acc' :=
      if it.queue = some "QUANTUM_TASKS_QUEUE" then
        if it.queuePriority = some "Priority" then
          { acc with quantumTasksPriority := it.queueSize }
        else
          { acc with quantumTasksNormal := it.queueSize }
      else if it.queue = some "JOBS_QUEUE" then
        { acc with jobs := it.queueSize }
      else acc
    queueLoop rest acc'

/-- A `get_device` response dict; `none` marks an absent key. -/
structure GetDeviceResponse where
  deviceArn : Option String := none
  deviceName : Option String := none
  deviceType : Option String := none
  deviceStatus : Option String := none
  providerName : Option String := none
  deviceQueueInfo : Option (List QueueItem) := none
  deviceCapabilities : Option String := none
  deriving DecidableEq, Repr

/-- The outcome of calling `get_device` in one region: a response dict,
a botocore `ClientError` with an error code, or any other exception. -/
inductive GetDeviceOutcome where
  | ok (resp : GetDeviceResponse)
  | clientError (code : String) (msg : String)
  | otherError (name : String) (msg : String)
  deriving DecidableEq, Repr

/-- An environment for describe: per region, what `get_device` yields
there for the requested ARN on this run. -/
abbrev DescribeEnv := String → GetDeviceOutcome

/-- Errors `_get_device_info` can raise: `ValueError` (mapped to the
`validation` kind by the top-level handler), `LookupError` (mapped to
`not_found`), and re-raised `ClientError`s. -/
inductive DescribeError where
  | valueError (msg : String)
  | lookupError (msg : String)
  | clientError (code : String) (msg : String)
  deriving DecidableEq, Repr

/-- The device-info dict built by `_get_device_info`; also the shape of a
cache entry, since routes.py line 358 caches `device_info.copy()` whole.
`none` on `queueDepth` / `properties` marks an absent key. -/
structure DeviceInfoDict where
  deviceArn : Option String := none
  deviceName : Option String := none
  deviceType : Option String := none
  deviceStatus : Option String := none
  providerName : Option String := none
  queueDepth : Option QueueDepth := none
  properties : Option String := none
  deriving DecidableEq, Repr

/-- The class-level `_device_cache` dict, as an association list
(most recent write first). -/
abbrev Cache := List (String × DeviceInfoDict)

/-- Dict lookup in the cache. -/
def lookupCache : Cache → String → Option DeviceInfoDict
  | [], _ => none
  | (k, v) :: rest, a => if k = a then some v else lookupCache rest a

/-- Dict write `self._device_cache[device_arn] = cached_info`. -/
def insertCache (c : Cache) (k : String) (v : DeviceInfoDict) : Cache :=
  (k, v) :: c

/-- Python `str.split` on a single-character separator: cut at every
occurrence of the separator, keeping empty segments (structural over the
character list, so that concrete runs evaluate). -/
def splitCharAux (sep : Char) : List Char → List Char → List (List Char)
  | [], acc => [acc.reverse]
  | c :: rest, acc =>
    if c = sep then acc.reverse :: splitCharAux sep rest []
    else splitCharAux sep rest (c :: acc)

/-- Python `device_arn.split(':')` (routes.py line 244). -/
def splitColon (s : String) : List String :=
  (splitCharAux ':' s.data []).map String.mk

/-- Python `device_arn.startswith('arn:aws:braket:')` (routes.py
line 238). -/
def startsWithBraketArn (s : String) : Bool :=
  "arn:aws:braket:".data.isPrefixOf s.data

/-- Region extraction from the ARN (routes.py lines 244-245):
`arn_parts[3] if len(arn_parts) > 3 else ''`. -/
def arnRegion (device_arn : String) : String :=
  (splitColon device_arn).getD 3 ""

/-- The last exception recorded while probing regions (`last_error`). -/
inductive ProbeFailure where
  | clientError (code : String) (msg : String)
  | otherError (name : String) (msg : String)
  deriving DecidableEq, Repr

/-- The message of the `LookupError` raised when the region-less probe
exhausts all regions (routes.py line 289). Note it does not mention the
recorded `last_error`, which is only logged. -/
def allRegionsMsg (device_arn : String) : String :=
  "Device not found in any region: " ++ device_arn ++ ". It may have been retired."

/-- The region-less probe loop (routes.py lines 267-289): try each region
in order; stop at the first successful response; a
`ResourceNotFoundException` or any non-`ClientError` exception records
`last_error` and continues; any other `ClientError` is re-raised.  When
all regions are exhausted, raise the generic not-found `LookupError`
(independent of the recorded `last_error`). -/
def probeRegions (env : DescribeEnv) (device_arn : String) :
    List String → Option ProbeFailure → Except DescribeError GetDeviceResponse
  | [], _ => .error (.lookupError (allRegionsMsg device_arn))
  | r :: rest, _lastError =>
    match env r with
    | .ok resp => .ok resp
    | .clientError c m =>
      if c = "ResourceNotFoundException" then
        probeRegions env device_arn rest (some (.clientError c m))
      else .error (.clientError c m)
    | .otherError n m => probeRegions env device_arn rest (some (.otherError n m))

/-- The region-directed branch (routes.py lines 251-263): one call to the
ARN's region; `ResourceNotFoundException` becomes a `LookupError`, other
`ClientError`s re-raise, any other exception becomes a `LookupError`. -/
def directDescribe (env : DescribeEnv) (device_arn arn_region : String) :
    Except DescribeError GetDeviceResponse :=
  match env arn_region with
  | .ok resp => .ok resp
  | .clientError c m =>
    if c = "ResourceNotFoundException" then
      .error (.lookupError ("Device not found: " ++ device_arn ++ ". It may have been retired."))
    else .error (.clientError c m)
  | .otherError _ _ =>
    .error (.lookupError ("Device not found or inaccessible: " ++ device_arn))

/-- Response resolution (routes.py lines 241-289): pick the direct branch
when the ARN carries a region, otherwise probe all regions in order. -/
def resolveResponse (env : DescribeEnv) (device_arn : String) :
    Except DescribeError GetDeviceResponse :=
  let arn_region := arnRegion device_arn
  if arn_region ≠ "" then directDescribe env device_arn arn_region
  else probeRegions env device_arn BRAKET_REGIONS none

/-- Building `device_info` on a cache miss (routes.py lines 304-355):
mandatory fields from the response, then `queueDepth` and `properties`
each added only when the corresponding response key exists. -/
def buildFreshInfo (resp : GetDeviceResponse) (current_status : String) : DeviceInfoDict :=
  let base : DeviceInfoDict :=
    { deviceArn := resp.deviceArn, deviceName := resp.deviceName,
      deviceType := resp.deviceType, deviceStatus := some current_status,
      providerName := resp.providerName }
  let info1 :=
    match resp.deviceQueueInfo with
    | some items => { base with queueDepth := some (queueLoop items ⟨0, 0, 0⟩) }
    | none => base
  match resp.deviceCapabilities with
  | some caps => { info1 with properties := some caps }
  | none => info1

/-- The post-resolution steps of `_get_device_info` (routes.py 291-361):
read the fresh status (default UNKNOWN when the key is absent); on a
cache hit copy the cached dict and overwrite its status; on a miss build
the full dict and write a copy of it — status included — into the cache.
Returns the device info, the warnings, and the updated cache. -/
def finalizeInfo (resp : GetDeviceResponse) (cache : Cache) (device_arn : String) :
    DeviceInfoDict × List String × Cache :=
  let current_status := resp.deviceStatus.getD "UNKNOWN"
  match lookupCache cache device_arn with
  | some entry => ({ entry with deviceStatus := some current_status }, [], cache)
  | none =>
    let info := buildFreshInfo resp current_status
    (info, [], insertCache cache device_arn info)

/-- The method `DevicesRouteHandler._get_device_info` (routes.py lines 221-361).
The cache is passed and returned explicitly (it is class-level state in
the source). -/
def get_device_info (env : DescribeEnv) (cache : Cache) (device_arn : String) :
    Except DescribeError (DeviceInfoDict × List String × Cache) :=
  if device_arn = "" ∨ ¬ startsWithBraketArn device_arn then
    .error (.valueError ("Invalid device ARN format: " ++ device_arn))
  else
    match resolveResponse env device_arn with
    | .error e => .error e
    | .ok resp => .ok (finalizeInfo resp cache device_arn)

/-- Equality of the static (non-status) fields of two device-info dicts:
id, name, kind, provider, queue depth and capabilities. -/
def staticEq (a b : DeviceInfoDict) : Prop :=
  a.deviceArn = b.deviceArn ∧ a.deviceName = b.deviceName ∧
  a.deviceType = b.deviceType ∧ a.providerName = b.providerName ∧
  a.queueDepth = b.queueDepth ∧ a.properties = b.properties

/-- A region whose list fetch either finished cleanly or raised a
non-`ClientError` exception (the degradable cases of the list loop). -/
def regionDegradable (rp : RegionPages) : Prop :=
  rp.failure = none ∨ ∃ n m, rp.failure = some (.otherError n m)

/-- The outcome of a region that reports the device missing. -/
def notFoundOutcome (o : GetDeviceOutcome) : Prop :=
  ∃ m, o = .clientError "ResourceNotFoundException" m

/-- The outcomes the region-less probe skips past: a not-found client
error, or any non-`ClientError` exception. -/
def skipsRegion (o : GetDeviceOutcome) : Prop :=
  notFoundOutcome o ∨ ∃ n m, o = .otherError n m

/-- Sample raw device record used by the concrete list runs. -/
def rawC7a : RawDevice :=
  { deviceArn := some "arn:aws:braket:us-east-1::device/qpu/acme/one",
    deviceName := some "Acme One", deviceType := some "QPU",
    deviceStatus := some "ONLINE", providerName := some "Acme" }

/-- Sample RETIRED raw device record. -/
def rawC7b : RawDevice :=
  { deviceArn := some "arn:aws:braket:us-east-1::device/qpu/acme/two",
    deviceName := some "Acme Two", deviceType := some "QPU",
    deviceStatus := some "RETIRED", providerName := some "Acme" }

/-- Concrete list environment: one region returns an ONLINE and a
RETIRED device, the others return nothing. -/
def envC7 : ListEnv := fun r =>
  if r = "us-east-1" then ⟨[[rawC7a, rawC7b]], none⟩ else ⟨[], none⟩

/-- The entry kept by the filter in the concrete run. -/
def listedC7 : ListedDevice :=
  { deviceArn := some "arn:aws:braket:us-east-1::device/qpu/acme/one",
    deviceName := some "Acme One", deviceType := some "QPU",
    deviceStatus := "ONLINE", providerName := some "Acme",
    region := "us-east-1" }

/-- A dict sitting in the cache under the malformed key, to show the
validation error fires regardless of cache contents. -/
def infoC8 : DeviceInfoDict :=
  { deviceArn := some "quantum", deviceStatus := some "ONLINE" }

/-- A region-carrying ARN for the concrete describe runs. -/
def arnC9 : String := "arn:aws:braket:us-west-2::device/qpu/acme/two"

/-- Stale cached entry for `arnC9`: static fields plus an OFFLINE status
left over from its first resolution. -/
def entryC9 : DeviceInfoDict :=
  { deviceArn := some arnC9, deviceName := some "Acme Two",
    deviceType := some "QPU", deviceStatus := some "OFFLINE",
    providerName := some "Acme", queueDepth := some ⟨4, 1, 2⟩,
    properties := some "caps-blob" }

/-- Fresh collaborator response for `arnC9`, now ONLINE. -/
def respC9 : GetDeviceResponse :=
  { deviceArn := some arnC9, deviceStatus := some "ONLINE" }

/-- The detail the cache-hit fast path returns in the concrete run. -/
def dC9 : DeviceInfoDict := { entryC9 with deviceStatus := some "ONLINE" }

/-- A region-carrying ARN whose collaborator response lacks the status
key. -/
def arnC10 : String := "arn:aws:braket:us-east-1::device/qpu/acme/one"

/-- Response for `arnC10` with no status key. -/
def respC10 : GetDeviceResponse :=
  { deviceArn := some arnC10, deviceName := some "Acme One",
    deviceType := some "QPU", providerName := some "Acme" }

/-- A region-carrying ARN for the two-call concrete run. -/
def arnC3 : String := "arn:aws:braket:eu-west-2::device/qpu/acme/three"

/-- First response: ONLINE, with queue info and a capabilities blob. -/
def respC3a : GetDeviceResponse :=
  { deviceArn := some arnC3, deviceName := some "Acme Three",
    deviceType := some "QPU", deviceStatus := some "ONLINE",
    providerName := some "Acme",
    deviceQueueInfo := some [⟨some "QUANTUM_TASKS_QUEUE", 5, none⟩,
                             ⟨some "QUANTUM_TASKS_QUEUE", 2, some "Priority"⟩,
                             ⟨some "JOBS_QUEUE", 1, none⟩],
    deviceCapabilities := some "cap-json" }

/-- Second response: same device, now OFFLINE. -/
def respC3b : GetDeviceResponse := { respC3a with deviceStatus := some "OFFLINE" }

/-- The detail the first call builds and caches. -/
def d1C3 : DeviceInfoDict :=
  { deviceArn := some arnC3, deviceName := some "Acme Three",
    deviceType := some "QPU", deviceStatus := some "ONLINE",
    providerName := some "Acme", queueDepth := some ⟨5, 2, 1⟩,
    properties := some "cap-json" }

/-- The detail the second call returns from the cache-hit path. -/
def d2C3 : DeviceInfoDict := { d1C3 with deviceStatus := some "OFFLINE" }

/-- A region-less simulator ARN (its region segment is empty). -/
def arnSimC2 : String := "arn:aws:braket:::device/quantum-simulator/amazon/sv1"

/-- Environment where every region reports the device missing. -/
def envC2 : DescribeEnv := fun _ => .clientError "ResourceNotFoundException" "no such device"

/-- A region-less simulator ARN for the C4 runs. -/
def arnSimC4 : String := "arn:aws:braket:::device/quantum-simulator/amazon/tn1"

/-- Successful response used by the C4 runs. -/
def respC4 : GetDeviceResponse :=
  { deviceArn := some arnSimC4, deviceName := some "TN1",
    deviceType := some "SIMULATOR", deviceStatus := some "ONLINE",
    providerName := some "Amazon" }

/-- Environment where the first region raises a throttling
`ClientError` and every other region would return the device. -/
def envC4 : DescribeEnv := fun r =>
  if r = "us-east-1" then .clientError "ThrottlingException" "throttled"
  else .ok respC4

/-- Environment where the first region raises a non-`ClientError`
exception and the second returns the device. -/
def envC4w : DescribeEnv := fun r =>
  if r = "us-east-1" then .otherError "ReadTimeoutError" "read timed out"
  else .ok respC4

/-- A region-less simulator ARN for the C6 runs. -/
def arnSimC6 : String := "arn:aws:braket:::device/quantum-simulator/amazon/dm1"

/-- Environment where the first region raises an unexpected failure
(recorded as `last_error`) and every other region reports not-found. -/
def envC6 : DescribeEnv := fun r =>
  if r = "us-east-1" then .otherError "RuntimeError" "socket exploded"
  else .clientError "ResourceNotFoundException" "nope"

/-- A region-carrying ARN for the C5 run. -/
def arnC5 : String := "arn:aws:braket:us-east-1::device/qpu/acme/five"

/-- Response for the first (uncached) resolution of `arnC5`. -/
def respC5 : GetDeviceResponse :=
  { deviceArn := some arnC5, deviceName := some "Acme Five",
    deviceType := some "QPU", deviceStatus := some "ONLINE",
    providerName := some "Acme", deviceCapabilities := some "caps" }

/-- The detail built — and cached whole — by that first resolution. -/
def infoC5 : DeviceInfoDict :=
  { deviceArn := some arnC5, deviceName := some "Acme Five",
    deviceType := some "QPU", deviceStatus := some "ONLINE",
    providerName := some "Acme", properties := some "caps" }

/-- A device summary returned by the healthy regions in the C1 runs. -/
def rawC1 : RawDevice :=
  { deviceArn := some "arn:aws:braket:us-west-1::device/qpu/acme/one",
    deviceName := some "Acme One", deviceType := some "QPU",
    deviceStatus := some "ONLINE", providerName := some "Acme" }

/-- Environment where exactly one region's pagination fails with the
provider's server-side `ClientError` and all other regions succeed. -/
def envC1 : ListEnv := fun r =>
  if r = "us-east-1" then
    ⟨[], some (.clientError "InternalServiceException" "internal failure")⟩
  else ⟨[[rawC1]], none⟩

/-- Environment where the first region's pagination raises a
non-`ClientError` exception and a later region returns a device. -/
def envC1w : ListEnv := fun r =>
  if r = "us-east-1" then ⟨[], some (.otherError "ReadTimeoutError" "read timed out")⟩
  else if r = "us-west-1" then ⟨[[rawC1]], none⟩
  else ⟨[], none⟩

/-- When every region is degradable, the list fan-out loop succeeds with
all tagged devices, and every failing region's warning is collected. -/
theorem fetchLoop_ok (env : ListEnv) (l : List String)
    (h : ∀ r ∈ l, regionDegradable (env r)) :
    ∃ ws, fetchLoop env l = .ok ((l.map (fun r => tagDevices r (env r))).flatten, ws) ∧
      ∀ r n m, r ∈ l → (env r).failure = some (.otherError n m) →
        regionWarning r n m ∈ ws := by
  induction l with
  | nil => exact ⟨[], rfl, by simp⟩
  | cons r rest ih =>
    obtain ⟨ws, hws, hmem⟩ := ih (fun r' hr' => h r' (List.mem_cons_of_mem _ hr'))
    rcases h r (List.mem_cons_self r rest) with hnone | ⟨n, m, hfail⟩
    · refine ⟨ws, ?_, ?_⟩
      · simp [fetchLoop, processRegion, hnone, hws]
      · intro r' n' m' hr' hfl
        rcases List.mem_cons.mp hr' with rfl | hr'
        · rw [hnone] at hfl; cases hfl
        · exact hmem r' n' m' hr' hfl
    · refine ⟨regionWarning r n m :: ws, ?_, ?_⟩
      · simp [fetchLoop, processRegion, hfail, hws]
      · intro r' n' m' hr' hfl
        rcases List.mem_cons.mp hr' with rfl | hr'
        · rw [hfail, Option.some.injEq, RegionFailure.otherError.injEq] at hfl
          obtain ⟨rfl, rfl⟩ := hfl
          exact List.mem_cons_self _ _
        · exact List.mem_cons_of_mem _ (hmem r' n' m' hr' hfl)

/-- When all regions before a `ClientError`-failing region finish
cleanly, the list fan-out loop re-raises that error. -/
theorem fetchLoop_abort (env : ListEnv) (pre : List String) (r0 : String)
    (post : List String) (c m : String)
    (hok : ∀ r ∈ pre, (env r).failure = none)
    (hfail : (env r0).failure = some (.clientError c m)) :
    fetchLoop env (pre ++ r0 :: post) = .error (.clientError c m) := by
  induction pre with
  | nil => simp [fetchLoop, processRegion, hfail]
  | cons p ps ih =>
    have hp := hok p (List.mem_cons_self p ps)
    have ih' := ih (fun r hr => hok r (List.mem_cons_of_mem _ hr))
    simp [fetchLoop, processRegion, hp, ih']

/-- Every entry the filtering stage emits carries an ONLINE or OFFLINE
status: the filter drops every other status, RETIRED included. -/
theorem filterDevices_status (l : List TaggedDevice) (d : ListedDevice)
    (hd : d ∈ filterDevices l) :
    d.deviceStatus = "ONLINE" ∨ d.deviceStatus = "OFFLINE" := by
  rw [filterDevices, List.mem_filterMap] at hd
  obtain ⟨td, _, hf⟩ := hd
  split at hf
  next s hs =>
    split at hf
    next hON =>
      rw [Option.some.injEq] at hf
      subst hf
      exact hON
    next hON => cases hf
  next => cases hf

/-- When every region's outcome is skipped, the probe raises the generic
not-found `LookupError` — whatever failures were recorded on the way. -/
theorem probeRegions_all_skip (env : DescribeEnv) (arn : String) (l : List String)
    (lastError : Option ProbeFailure) (h : ∀ r ∈ l, skipsRegion (env r)) :
    probeRegions env arn l lastError = .error (.lookupError (allRegionsMsg arn)) := by
  induction l generalizing lastError with
  | nil => rfl
  | cons r rest ih =>
    have h' : ∀ r' ∈ rest, skipsRegion (env r') :=
      fun r' hr' => h r' (List.mem_cons_of_mem _ hr')
    rcases h r (List.mem_cons_self r rest) with ⟨m, hm⟩ | ⟨n, m, hm⟩
    · simp only [probeRegions, hm, if_pos rfl]
      exact ih _ h'
    · simp only [probeRegions, hm]
      exact ih _ h'

/-- The probe stops at the first region returning a response, after
skipping any run of not-found / unexpected-failure regions before it. -/
theorem probeRegions_first_ok (env : DescribeEnv) (arn : String) (pre : List String)
    (r : String) (post : List String) (lastError : Option ProbeFailure)
    (resp : GetDeviceResponse)
    (hpre : ∀ r' ∈ pre, skipsRegion (env r')) (hr : env r = .ok resp) :
    probeRegions env arn (pre ++ r :: post) lastError = .ok resp := by
  induction pre generalizing lastError with
  | nil => simp [probeRegions, hr]
  | cons p ps ih =>
    have h' : ∀ r' ∈ ps, skipsRegion (env r') :=
      fun r' hr' => hpre r' (List.mem_cons_of_mem _ hr')
    rcases hpre p (List.mem_cons_self p ps) with ⟨m, hm⟩ | ⟨n, m, hm⟩
    · simp only [List.cons_append, probeRegions, hm, if_pos rfl]
      exact ih _ h'
    · simp only [List.cons_append, probeRegions, hm]
      exact ih _ h'

/-- A `ClientError` other than not-found aborts the probe immediately:
it is re-raised, and the remaining regions are never tried. -/
theorem probeRegions_abort (env : DescribeEnv) (arn : String) (pre : List String)
    (r : String) (post : List String) (lastError : Option ProbeFailure) (c m : String)
    (hpre : ∀ r' ∈ pre, skipsRegion (env r')) (hr : env r = .clientError c m)
    (hc : c ≠ "ResourceNotFoundException") :
    probeRegions env arn (pre ++ r :: post) lastError = .error (.clientError c m) := by
  induction pre generalizing lastError with
  | nil => simp [probeRegions, hr, hc]
  | cons p ps ih =>
    have h' : ∀ r' ∈ ps, skipsRegion (env r') :=
      fun r' hr' => hpre r' (List.mem_cons_of_mem _ hr')
    rcases hpre p (List.mem_cons_self p ps) with ⟨m', hm⟩ | ⟨n, m', hm⟩
    · simp only [List.cons_append, probeRegions, hm, if_pos rfl]
      exact ih _ h'
    · simp only [List.cons_append, probeRegions, hm]
      exact ih _ h'

/-- A validly prefixed ARN is in particular nonempty, so the guard of
the validation check is false for it. -/
theorem valid_arn_guard (device_arn : String)
    (hv : startsWithBraketArn device_arn) :
    ¬ (device_arn = "" ∨ ¬ startsWithBraketArn device_arn) := by
  rintro (rfl | hns)
  · exact absurd hv (by decide)
  · exact hns hv

/-- Inversion for a successful describe: the response came from the
resolution step, and the result/cache follow one of the two branches —
cache hit (copy entry, overwrite status, cache unchanged) or cache miss
(build the full dict and store it, status included). -/
theorem get_device_info_ok_cases (env : DescribeEnv) (cache : Cache)
    (device_arn : String) (d : DeviceInfoDict) (w : List String) (c : Cache)
    (h : get_device_info env cache device_arn = .ok (d, w, c)) :
    ∃ resp, resolveResponse env device_arn = .ok resp ∧
      ((∃ entry, lookupCache cache device_arn = some entry ∧
         d = { entry with deviceStatus := some (resp.deviceStatus.getD "UNKNOWN") } ∧
         c = cache) ∨
       (lookupCache cache device_arn = none ∧
         d = buildFreshInfo resp (resp.deviceStatus.getD "UNKNOWN") ∧
         c = insertCache cache device_arn d)) := by
  by_cases hval : device_arn = "" ∨ ¬ startsWithBraketArn device_arn
  · rw [get_device_info, if_pos hval] at h; cases h
  · rw [get_device_info, if_neg hval] at h
    cases hres : resolveResponse env device_arn with
    | error e => rw [hres] at h; cases h
    | ok resp =>
      rw [hres] at h
      refine ⟨resp, rfl, ?_⟩
      cases hl : lookupCache cache device_arn with
      | some entry =>
        simp only [finalizeInfo, hl, Except.ok.injEq, Prod.mk.injEq] at h
        obtain ⟨rfl, rfl, rfl⟩ := h
        exact Or.inl ⟨entry, rfl, rfl, rfl⟩
      | none =>
        simp only [finalizeInfo, hl, Except.ok.injEq, Prod.mk.injEq] at h
        obtain ⟨rfl, rfl, rfl⟩ := h
        exact Or.inr ⟨rfl, rfl, rfl⟩

/-- Looking up the key just written returns the written dict. -/
theorem lookupCache_insert_self (c : Cache) (k : String) (v : DeviceInfoDict) :
    lookupCache (insertCache c k v) k = some v := by
  simp [insertCache, lookupCache]

/-- The dict built on a cache miss always carries the freshly computed
status value under its status key. -/
theorem buildFreshInfo_status (resp : GetDeviceResponse) (s : String) :
    (buildFreshInfo resp s).deviceStatus = some s := by
  rw [buildFreshInfo]
  cases resp.deviceQueueInfo <;> cases resp.deviceCapabilities <;> rfl

/-- For a region-less ARN the resolution step is exactly the probe over
the whole region catalog. -/
theorem resolveResponse_regionless (env : DescribeEnv) (arn : String)
    (hreg : arnRegion arn = "") :
    resolveResponse env arn = probeRegions env arn BRAKET_REGIONS none := by
  rw [resolveResponse]
  simp [hreg]

/-- C7: for every input device set returned by the regional searches, the
sequence returned by listDevices contains no entry whose status is
RETIRED; every returned entry has status ONLINE or OFFLINE. -/
theorem C7_list_never_returns_retired (env : ListEnv) (ds : List ListedDevice)
    (ws : List String) (h : list_devices env = .ok (ds, ws))
    (d : ListedDevice) (hd : d ∈ ds) :
    (d.deviceStatus = "ONLINE" ∨ d.deviceStatus = "OFFLINE") ∧
      d.deviceStatus ≠ "RETIRED" := by
  rw [list_devices] at h
  cases hf : fetchLoop env BRAKET_REGIONS with
  | error e => rw [hf] at h; cases h
  | ok p =>
    obtain ⟨all, ws'⟩ := p
    rw [hf] at h
    simp only [Except.ok.injEq, Prod.mk.injEq] at h
    obtain ⟨rfl, rfl⟩ := h
    have hst := filterDevices_status all d hd
    refine ⟨hst, ?_⟩
    rcases hst with h1 | h1 <;> rw [h1] <;> decide

/-- Witness for C7 on a concrete run whose input holds a RETIRED device:
the single returned entry is ONLINE, hence not RETIRED. -/
theorem C7_witness :
    (listedC7.deviceStatus = "ONLINE" ∨ listedC7.deviceStatus = "OFFLINE") ∧
      listedC7.deviceStatus ≠ "RETIRED" :=
  C7_list_never_returns_retired envC7 [listedC7] [] rfl listedC7
    (by decide)

/-- C8: for every identifier that lacks the required lexical ARN start
(including the empty identifier), describe raises the `ValueError` that
the handler maps to a validation error, whatever the environment and
cache hold — in particular before any collaborator interaction. -/
theorem C8_malformed_id_validation (env : DescribeEnv) (cache : Cache)
    (device_arn : String) (h : ¬ startsWithBraketArn device_arn) :
    get_device_info env cache device_arn =
      .error (.valueError ("Invalid device ARN format: " ++ device_arn)) := by
  rw [get_device_info, if_pos (Or.inr h)]

/-- Witness for C8: a malformed id raises the validation error even
though the cache holds an entry for it and every region would answer. -/
theorem C8_witness :
    get_device_info (fun _ => .ok { deviceStatus := some "ONLINE" })
        [("quantum", infoC8)] "quantum" =
      .error (.valueError ("Invalid device ARN format: " ++ "quantum")) :=
  C8_malformed_id_validation _ _ _ (by decide)

/-- C9: on every successful describe the returned status is exactly the
status read fresh from the resolved collaborator response (with the
UNKNOWN default), never a cached value; and on a cache hit the static
fields are copied from the cached entry while status is overwritten. -/
theorem C9_status_always_fresh (env : DescribeEnv) (cache : Cache)
    (device_arn : String) (d : DeviceInfoDict) (w : List String) (c : Cache)
    (h : get_device_info env cache device_arn = .ok (d, w, c)) :
    ∃ resp, resolveResponse env device_arn = .ok resp ∧
      d.deviceStatus = some (resp.deviceStatus.getD "UNKNOWN") ∧
      ∀ entry, lookupCache cache device_arn = some entry → staticEq d entry := by
  obtain ⟨resp, hres, hcase⟩ := get_device_info_ok_cases env cache device_arn d w c h
  refine ⟨resp, hres, ?_, ?_⟩
  · rcases hcase with ⟨entry, -, rfl, -⟩ | ⟨-, rfl, -⟩
    · rfl
    · exact buildFreshInfo_status resp _
  · intro entry' hentry
    rcases hcase with ⟨entry, hl, rfl, -⟩ | ⟨hl, rfl, -⟩
    · rw [hl, Option.some.injEq] at hentry
      subst hentry
      exact ⟨rfl, rfl, rfl, rfl, rfl, rfl⟩
    · rw [hl] at hentry
      cases hentry

/-- Witness for C9: with a stale OFFLINE entry cached, the returned
detail carries the fresh ONLINE status and the cached static fields. -/
theorem C9_witness :
    ∃ resp, resolveResponse (fun _ => .ok respC9) arnC9 = .ok resp ∧
      dC9.deviceStatus = some (resp.deviceStatus.getD "UNKNOWN") ∧
      ∀ entry, lookupCache [(arnC9, entryC9)] arnC9 = some entry →
        staticEq dC9 entry :=
  C9_status_always_fresh (fun _ => .ok respC9) [(arnC9, entryC9)] arnC9
    dC9 [] [(arnC9, entryC9)] rfl

/-- C10: when the resolved response dict for a valid identifier has no
status key at all, describe still succeeds and the returned detail's
status is the literal UNKNOWN. -/
theorem C10_missing_status_defaults_unknown (env : DescribeEnv) (cache : Cache)
    (device_arn : String) (resp : GetDeviceResponse)
    (hv : startsWithBraketArn device_arn)
    (hres : resolveResponse env device_arn = .ok resp)
    (hst : resp.deviceStatus = none) :
    ∃ d w c, get_device_info env cache device_arn = .ok (d, w, c) ∧
      d.deviceStatus = some "UNKNOWN" := by
  rw [get_device_info, if_neg (valid_arn_guard device_arn hv), hres]
  refine ⟨(finalizeInfo resp cache device_arn).1,
    (finalizeInfo resp cache device_arn).2.1,
    (finalizeInfo resp cache device_arn).2.2, rfl, ?_⟩
  simp only [finalizeInfo, hst, Option.getD_none]
  cases hl : lookupCache cache device_arn with
  | some entry => rfl
  | none => exact buildFreshInfo_status resp _

/-- Witness for C10: the concrete call succeeds and reports UNKNOWN. -/
theorem C10_witness :
    ∃ d w c, get_device_info (fun _ => .ok respC10) [] arnC10 = .ok (d, w, c) ∧
      d.deviceStatus = some "UNKNOWN" :=
  C10_missing_status_defaults_unknown (fun _ => .ok respC10) [] arnC10 respC10
    (by decide) rfl rfl

/-- C3: two consecutive successful describes of the same id, the second
run on the cache state the first returned, agree on every static field;
only the status may differ. -/
theorem C3_consecutive_describe_static_agree (env1 env2 : DescribeEnv)
    (cache : Cache) (arn : String) (d1 d2 : DeviceInfoDict)
    (w1 w2 : List String) (c1 c2 : Cache)
    (h1 : get_device_info env1 cache arn = .ok (d1, w1, c1))
    (h2 : get_device_info env2 c1 arn = .ok (d2, w2, c2)) :
    staticEq d1 d2 := by
  obtain ⟨r1, hres1, hc1⟩ := get_device_info_ok_cases env1 cache arn d1 w1 c1 h1
  obtain ⟨r2, hres2, hc2⟩ := get_device_info_ok_cases env2 c1 arn d2 w2 c2 h2
  rcases hc1 with ⟨e1, hl1, rfl, rfl⟩ | ⟨hl1, rfl, rfl⟩
  · rcases hc2 with ⟨e2, hl2, rfl, -⟩ | ⟨hl2, -, -⟩
    · rw [hl1, Option.some.injEq] at hl2
      subst hl2
      exact ⟨rfl, rfl, rfl, rfl, rfl, rfl⟩
    · rw [hl1] at hl2
      cases hl2
  · rcases hc2 with ⟨e2, hl2, rfl, -⟩ | ⟨hl2, -, -⟩
    · rw [lookupCache_insert_self, Option.some.injEq] at hl2
      subst hl2
      exact ⟨rfl, rfl, rfl, rfl, rfl, rfl⟩
    · rw [lookupCache_insert_self] at hl2
      cases hl2

/-- Witness for C3 on the two concrete calls: first resolves and caches,
second hits the cache under a changed status; statics agree. -/
theorem C3_witness : staticEq d1C3 d2C3 :=
  C3_consecutive_describe_static_agree (fun _ => .ok respC3a)
    (fun _ => .ok respC3b) [] arnC3 d1C3 d2C3 [] [] [(arnC3, d1C3)]
    [(arnC3, d1C3)] rfl rfl

/-- C2: for a region-less identifier the probe follows the catalog's
declared order — the result is determined by the first region returning
a response, after any run of not-found regions — and when every region
reports not-found, the raised error is the `LookupError` the handler
maps to `not_found` (not a server error). -/
theorem C2_regionless_probe_order (env : DescribeEnv) (cache : Cache)
    (arn : String) (hv : startsWithBraketArn arn) (hreg : arnRegion arn = "") :
    (∀ pre r post resp, BRAKET_REGIONS = pre ++ r :: post →
        (∀ r' ∈ pre, notFoundOutcome (env r')) → env r = .ok resp →
        get_device_info env cache arn = .ok (finalizeInfo resp cache arn)) ∧
    ((∀ r ∈ BRAKET_REGIONS, notFoundOutcome (env r)) →
        get_device_info env cache arn =
          .error (.lookupError (allRegionsMsg arn))) := by
  have hguard := valid_arn_guard arn hv
  have hResolve := resolveResponse_regionless env arn hreg
  constructor
  · intro pre r post resp hsplit hpre hr
    rw [get_device_info, if_neg hguard, hResolve, hsplit,
      probeRegions_first_ok env arn pre r post none resp
        (fun r' h' => Or.inl (hpre r' h')) hr]
  · intro hall
    rw [get_device_info, if_neg hguard, hResolve,
      probeRegions_all_skip env arn BRAKET_REGIONS none
        (fun r h' => Or.inl (hall r h'))]

/-- Witness for C2: with every region reporting not-found, describe
raises the not-found `LookupError`. -/
theorem C2_witness :
    get_device_info envC2 [] arnSimC2 =
      .error (.lookupError (allRegionsMsg arnSimC2)) :=
  (C2_regionless_probe_order envC2 [] arnSimC2 (by decide) (by decide)).2
    (fun _ _ => ⟨"no such device", rfl⟩)

/-- C4 counterexample: a collaborator error other than not-found — a
`ClientError` with a throttling code in the first region — aborts the
region-less probe outright, even though every remaining region would
have returned the device; the claim's "any collaborator error other
than not-found does not abort the probe" is false on the code. -/
theorem C4_counterexample :
    get_device_info envC4 [] arnSimC4 =
      .error (.clientError "ThrottlingException" "throttled") := rfl

/-- C4 amended: during the region-less probe a non-`ClientError`
failure (or a not-found) is recorded and skipped, the resolver trying
every remaining region; but a `ClientError` other than not-found is
re-raised immediately and aborts the probe. -/
theorem C4_probe_error_policy (env : DescribeEnv) (cache : Cache)
    (arn : String) (hv : startsWithBraketArn arn) (hreg : arnRegion arn = "")
    (pre : List String) (r : String) (post : List String)
    (hsplit : BRAKET_REGIONS = pre ++ r :: post)
    (hpre : ∀ r' ∈ pre, skipsRegion (env r')) :
    (∀ resp, env r = .ok resp →
        get_device_info env cache arn = .ok (finalizeInfo resp cache arn)) ∧
    (∀ c m, env r = .clientError c m → c ≠ "ResourceNotFoundException" →
        get_device_info env cache arn = .error (.clientError c m)) := by
  have hguard := valid_arn_guard arn hv
  have hResolve := resolveResponse_regionless env arn hreg
  constructor
  · intro resp hr
    rw [get_device_info, if_neg hguard, hResolve, hsplit,
      probeRegions_first_ok env arn pre r post none resp hpre hr]
  · intro c m hr hc
    rw [get_device_info, if_neg hguard, hResolve, hsplit,
      probeRegions_abort env arn pre r post none c m hpre hr hc]

/-- Witness for the amended C4: the probe skips past the first region's
unexpected failure and succeeds from the second region. -/
theorem C4_witness :
    get_device_info envC4w [] arnSimC4 = .ok (finalizeInfo respC4 [] arnSimC4) :=
  (C4_probe_error_policy envC4w [] arnSimC4 (by decide) (by decide)
      ["us-east-1"] "us-west-1" ["us-west-2", "eu-west-2", "eu-north-1"] rfl
      (fun r' h' => by
        rw [List.mem_singleton] at h'
        subst h'
        exact Or.inr ⟨"ReadTimeoutError", "read timed out", rfl⟩)).1
    respC4 rfl

/-- C6 counterexample: with a recorded candidate failure
(`RuntimeError: socket exploded`), the raised not-found error carries
only the generic all-regions message; neither the failure's type name
nor its text occurs in it, refuting the claim that the error's detail
includes the last recorded candidate failure. -/
theorem C6_counterexample :
    get_device_info envC6 [] arnSimC6 =
        .error (.lookupError (allRegionsMsg arnSimC6)) ∧
      ¬ List.IsInfix "socket exploded".data (allRegionsMsg arnSimC6).data ∧
      ¬ List.IsInfix "RuntimeError".data (allRegionsMsg arnSimC6).data := by
  refine ⟨rfl, by set_option maxRecDepth 4000 in decide,
    by set_option maxRecDepth 4000 in decide⟩

/-- C6 amended: when the region-less probe exhausts every region, the
raised not-found error carries the fixed generic message naming only the
device id — the recorded candidate failure is only logged, never part of
the raised error — whatever mix of not-found and other failures the
regions reported. -/
theorem C6_exhausted_probe_generic_error (env : DescribeEnv) (cache : Cache)
    (arn : String) (hv : startsWithBraketArn arn) (hreg : arnRegion arn = "")
    (hall : ∀ r ∈ BRAKET_REGIONS, skipsRegion (env r)) :
    get_device_info env cache arn =
      .error (.lookupError
        ("Device not found in any region: " ++ arn ++ ". It may have been retired.")) := by
  rw [get_device_info, if_neg (valid_arn_guard arn hv),
    resolveResponse_regionless env arn hreg,
    probeRegions_all_skip env arn BRAKET_REGIONS none hall]
  rfl

/-- Witness for the amended C6 on the concrete mixed-failure run. -/
theorem C6_witness :
    get_device_info envC6 [] arnSimC6 =
      .error (.lookupError
        ("Device not found in any region: " ++ arnSimC6 ++ ". It may have been retired.")) :=
  C6_exhausted_probe_generic_error envC6 [] arnSimC6 (by decide) (by decide)
    (fun r _ => by
      by_cases h : r = "us-east-1"
      · subst h
        exact Or.inr ⟨"RuntimeError", "socket exploded", rfl⟩
      · exact Or.inl ⟨"nope", by simp [envC6, h]⟩)

/-- C5: the first successful resolution of an uncached id writes
`device_info.copy()` into the cache (routes.py 357-359), so the stored
entry still carries the status key with the fetched value — contrary to
the code's own comments ("Cache static information (everything except
status)", "excluding status") and to the claim. -/
theorem C5_cache_entry_contains_status :
    get_device_info (fun _ => .ok respC5) [] arnC5 =
        .ok (infoC5, [], [(arnC5, infoC5)]) ∧
      (lookupCache [(arnC5, infoC5)] arnC5).map DeviceInfoDict.deviceStatus =
        some (some "ONLINE") := by
  refine ⟨rfl, by decide⟩

/-- C1 counterexample: one region's pagination fails with a
provider-side server error (`ClientError` code InternalServiceException)
while every other region succeeds with devices, yet `_list_devices`
re-raises it (routes.py 180-182) and the whole call fails fatally
instead of returning the remaining regions' devices with a warning. -/
theorem C1_counterexample :
    list_devices envC1 =
      .error (.clientError "InternalServiceException" "internal failure") := rfl

/-- C1 amended: a region whose pagination fails with a non-`ClientError`
exception degrades to a warning naming the region, the call succeeding
with the devices collected from the other regions; but a `ClientError` —
server-side error codes included — is re-raised and the list call fails
outright. -/
theorem C1_region_failure_policy (env : ListEnv) (pre : List String)
    (r0 : String) (post : List String)
    (hsplit : BRAKET_REGIONS = pre ++ r0 :: post)
    (hok : ∀ r ∈ pre ++ post, (env r).failure = none) :
    (∀ n m, env r0 = ⟨[], some (.otherError n m)⟩ →
      ∃ ws, list_devices env =
          .ok (filterDevices
            ((BRAKET_REGIONS.map (fun r => tagDevices r (env r))).flatten), ws) ∧
        regionWarning r0 n m ∈ ws) ∧
    (∀ pages c m, env r0 = ⟨pages, some (.clientError c m)⟩ →
      list_devices env = .error (.clientError c m)) := by
  constructor
  · intro n m hfail
    have hdeg : ∀ r ∈ BRAKET_REGIONS, regionDegradable (env r) := by
      intro r hr
      rw [hsplit] at hr
      rcases List.mem_append.mp hr with hr | hr
      · exact Or.inl (hok r (List.mem_append.mpr (Or.inl hr)))
      · rcases List.mem_cons.mp hr with rfl | hr
        · exact Or.inr ⟨n, m, by rw [hfail]⟩
        · exact Or.inl (hok r (List.mem_append.mpr (Or.inr hr)))
    obtain ⟨ws, hws, hmem⟩ := fetchLoop_ok env BRAKET_REGIONS hdeg
    refine ⟨ws, ?_, ?_⟩
    · rw [list_devices, hws]
    · refine hmem r0 n m ?_ (by rw [hfail])
      rw [hsplit]
      exact List.mem_append.mpr (Or.inr (List.mem_cons_self r0 post))
  · intro pages c m hfail
    rw [list_devices, hsplit,
      fetchLoop_abort env pre r0 post c m
        (fun r hr => hok r (List.mem_append.mpr (Or.inl hr))) (by rw [hfail])]

/-- Witness for the amended C1: the concrete run succeeds with the other
regions' devices and a warning naming the failed region. -/
theorem C1_witness :
    ∃ ws, list_devices envC1w =
        .ok (filterDevices
          ((BRAKET_REGIONS.map (fun r => tagDevices r (envC1w r))).flatten), ws) ∧
      regionWarning "us-east-1" "ReadTimeoutError" "read timed out" ∈ ws :=
  (C1_region_failure_policy envC1w [] "us-east-1"
      ["us-west-1", "us-west-2", "eu-west-2", "eu-north-1"] rfl
      (by decide)).1
    "ReadTimeoutError" "read timed out" rfl

end Braket
